import Mathlib

/-!
# Verification of the TempIdentity provider/polling core

A shallow embedding of the TempIdentity repository's core (provider
capability contracts, concrete adapters for Mail.gw and TextVerified, the
provider registry, and the orchestration facade in `core.py`), together
with proofs about the embedded definitions.

Modelling conventions:
* Python dicts keyed by strings become insertion-ordered association lists
  (`dictGet` / `dictInsert` mirror `dict.get` / item assignment).
* HTTP traffic becomes an explicit "upstream" record holding, per endpoint,
  the status code and the parsed payload fields the code reads.  A sequence
  of poll responses is a function `Nat → ...` giving the response to the
  k-th request.
* Python truthiness of an `Optional[str]` (`if not x:`) is `optStrFalsy`:
  true exactly for `None` and for the empty string.
* The wait loops (`while time.time() - start_time < timeout:` with a
  `time.sleep(check_interval)` at the end of each iteration) are modelled
  under the timing assumption that iteration `k` begins at elapsed time
  `k * check_interval` (polls are instantaneous, sleeps are exact).  The
  loop body therefore runs for exactly `numPolls timeout check_interval`
  iterations when no early return fires; the model is faithful only for
  `0 < check_interval` (with a zero interval the Python loop would spin on
  clock drift).
* Operations that perform HTTP requests also return the list of requests
  attempted, and facade functions additionally return the list of
  capability-contract operations they invoked on a provider instance, so
  that "no network call is attempted" / "no operation is invoked" are
  stateable.
-/

namespace TempIdentity

/-- Python truthiness test `not x` for an `Optional[str]`:
true for `None` and for `""`. -/
def optStrFalsy : Option String → Bool
  | none => true
  | some s => s == ""

/-- `dict.get(k)` on an insertion-ordered association list. -/
def dictGet {β : Type} : List (String × β) → String → Option β
  | [], _ => none
  | (k', v) :: rest, k => if k' = k then some v else dictGet rest k

/-- `d[k] = v` on an insertion-ordered association list: replace the
binding if the key is present, otherwise append. -/
def dictInsert {β : Type} : List (String × β) → String → β → List (String × β)
  | [], k, v => [(k, v)]
  | (k', v') :: rest, k, v =>
    if k' = k then (k, v) :: rest else (k', v') :: dictInsert rest k v

/-! ## Polling / wait engine

The shared bounded-wait loop of `EmailProvider.wait_for_messages`
(tempidentity_new/tempidentity/providers/email/base.py) and
`SMSProvider.wait_for_sms` (tempidentity/providers/sms/base.py). -/

/-- Number of iterations the loop `while time.time() - start_time < timeout`
executes under the timing model (iteration `k` starts at elapsed time
`k * interval`): the number of `k` with `k * interval < timeout`, i.e.
`⌈timeout / interval⌉` for `0 < interval`. -/
def numPolls (timeout interval : Nat) : Nat :=
  (timeout + interval - 1) / interval

/-- Loop body of `EmailProvider.wait_for_messages`: at iteration `k`
poll the inbox; if the current count exceeds `initial_count`, return the
slice `current[:len(current) - initial_count]`; otherwise sleep and retry.
`fuel` is the number of iterations remaining before the timeout check
fails. -/
def waitEmailLoop {α : Type} (poll : Nat → List α) (initial_count : Nat) :
    Nat → Nat → List α
  | 0, _ => []
  | fuel+1, k =>
    if initial_count < (poll k).length then
      (poll k).take ((poll k).length - initial_count)
    else
      waitEmailLoop poll initial_count fuel (k+1)

/-- `EmailProvider.wait_for_messages(timeout, check_interval)`:
`poll j` is the message list returned by the (j+1)-th call to
`check_messages` (so `poll 0` is the initial snapshot taken before the
loop). -/
def wait_for_messages {α : Type} (poll : Nat → List α)
    (timeout check_interval : Nat) : List α :=
  waitEmailLoop (fun k => poll (k+1)) (poll 0).length
    (numPolls timeout check_interval) 0

/-- Loop body of `SMSProvider.wait_for_sms`: at iteration `k` poll for a
code; `if code:` return it (Python truthiness: `None` and `""` both
continue the loop); otherwise sleep and retry. -/
def waitSMSLoop (poll : Nat → Option String) : Nat → Nat → Option String
  | 0, _ => none
  | fuel+1, k =>
    if optStrFalsy (poll k) then waitSMSLoop poll fuel (k+1)
    else poll k

/-- `SMSProvider.wait_for_sms(timeout, check_interval)`:
`poll j` is the value returned by the (j+1)-th call to `check_sms`. -/
def wait_for_sms (poll : Nat → Option String)
    (timeout check_interval : Nat) : Option String :=
  waitSMSLoop poll (numPolls timeout check_interval) 0

/-! ## Provider descriptors and setup fields

Class-level descriptor attributes (`name`, `display_name`, `description`,
`requires_api_key`) shared by `EmailProvider` and `SMSProvider`, and the
`get_setup_fields` classmethod, whose body is identical in
tempidentity/providers/sms/base.py and
tempidentity_new/tempidentity/providers/email/base.py. -/

structure ProviderClass where
  name : String
  display_name : String
  description : String
  requires_api_key : Bool
deriving DecidableEq

/-- One entry of the list returned by `get_setup_fields`. -/
structure SetupField where
  name : String
  display_name : String
  type : String
  required : Bool
  help_text : String
deriving DecidableEq

/-- `get_setup_fields()` of both provider base classes: one required
password field named `api_key` when `requires_api_key` is set, otherwise
no fields. -/
def get_setup_fields (cls : ProviderClass) : List SetupField :=
  if cls.requires_api_key then
    [{ name := "api_key", display_name := "API Key", type := "password",
       required := true,
       help_text := "API key for " ++ cls.display_name }]
  else []

/-! ## Mail.gw adapter (tempidentity/providers/email/mailgw.py) -/

/-- Class attributes of `MailGwProvider`. -/
def MailGwProvider.descriptor : ProviderClass :=
  { name := "mail.gw", display_name := "Mail.gw",
    description := "Free temporary email service", requires_api_key := false }

/-- Upstream responses of the Mail.gw API as read by the adapter:
`GET /domains` yields a status and the list of the members' `.get("domain")`
values; `POST /accounts` yields a status; `POST /token` yields a status and
the body's `.get("token")`. -/
structure MailGwUpstream where
  domainsStatus : Nat
  domains : List (Option String)
  accountsStatus : Nat
  tokenStatus : Nat
  tokenValue : Option String

/-- Mutable instance attributes of a `MailGwProvider` (the `email` and
`password` fields come from the `EmailProvider` base `__init__`). -/
structure MailGwState where
  token : Option String
  domain : Option String
  email : Option String
  password : Option String
deriving DecidableEq

/-- State of a freshly constructed `MailGwProvider` instance. -/
def MailGwProvider.init : MailGwState :=
  { token := none, domain := none, email := none, password := none }

/-- `MailGwProvider._get_domains`: on a 200 response return
`domains[0].get("domain")`, otherwise `None`. -/
def MailGwProvider.get_domains (up : MailGwUpstream) : Option String :=
  if up.domainsStatus = 200 then
    match up.domains with
    | [] => none
    | d :: _ => d
  else none

/-- `MailGwProvider._login`: on a 200 response store the token and report
success, otherwise report failure. -/
def MailGwProvider.login (st : MailGwState) (up : MailGwUpstream) :
    Bool × MailGwState :=
  if up.tokenStatus = 200 then (true, { st with token := up.tokenValue })
  else (false, st)

/-- `MailGwProvider.create_email`: fetch a domain (failing on a falsy
domain), store generated credentials, `POST /accounts`; on 201 attempt the
login and return `(True, email, password)` on login success and
`(False, email, password)` on login failure; on a non-201 account response
return `(False, "", "")`.  `username`/`password` stand for the two
`_generate_random_credentials()` draws. -/
def MailGwProvider.create_email (st : MailGwState) (up : MailGwUpstream)
    (username password : String) : (Bool × String × String) × MailGwState :=
  let domain := MailGwProvider.get_domains up
  let st1 := { st with domain := domain }
  if optStrFalsy domain then ((false, "", ""), st1)
  else
    let email := username ++ "@" ++ domain.getD ""
    let st2 := { st1 with password := some password, email := some email }
    if up.accountsStatus = 201 then
      let r := MailGwProvider.login st2 up
      if r.1 then ((true, email, password), r.2)
      else ((false, email, password), r.2)
    else ((false, "", ""), st2)

/-- `MailGwProvider.wait_for_messages` delegates to the base-class default
implementation via `super().wait_for_messages(timeout, check_interval)`. -/
def MailGwProvider.wait_for_messages {α : Type} (poll : Nat → List α)
    (timeout check_interval : Nat) : List α :=
  TempIdentity.wait_for_messages poll timeout check_interval

/-! ## TextVerified adapter
(tempidentity_new/tempidentity/providers/sms/textverified.py) -/

/-- Class attributes of `TextVerifiedProvider`. -/
def TextVerifiedProvider.descriptor : ProviderClass :=
  { name := "textverified", display_name := "TextVerified",
    description := "Paid temporary phone number service",
    requires_api_key := true }

/-- One service object of the TextVerified `GET /Services` payload. -/
structure Service where
  id : String
  name : String
  price : String
deriving DecidableEq

/-- Upstream responses of the TextVerified API as read by the adapter:
`GET /Services`, `POST /Verifications` (body `.get("id")` and
`.get("number")`), `GET /Verifications/{id}` (body `.get("code")`), and
`DELETE /Verifications/{id}`. -/
structure TVUpstream where
  servicesStatus : Nat
  services : List Service
  verifStatus : Nat
  verifId : Option String
  verifNumber : Option String
  checkStatus : Nat
  checkCode : Option String
  cancelStatus : Nat

/-- Mutable instance attributes of a `TextVerifiedProvider`
(`phone_number` and `verification_id` come from the `SMSProvider` base
`__init__`, `api_key` and `service` from the subclass `__init__`). -/
structure TVState where
  api_key : String
  phone_number : Option String
  verification_id : Option String
  service : Option String
deriving DecidableEq

/-- State of a freshly constructed `TextVerifiedProvider` instance:
`api_key` is `config.get('api_key', '')`, everything else `None`. -/
def TextVerifiedProvider.init (config : List (String × String)) : TVState :=
  { api_key := (dictGet config "api_key").getD "",
    phone_number := none, verification_id := none, service := none }

/-- `TextVerifiedProvider.get_available_services`: the parsed body on a
200 response, the empty list otherwise.  The second component lists the
HTTP requests attempted. -/
def TextVerifiedProvider.get_available_services (st : TVState)
    (up : TVUpstream) : List Service × List String :=
  if up.servicesStatus = 200 then (up.services, ["GET /Services"])
  else ([], ["GET /Services"])

/-- `TextVerifiedProvider.create_number`: on a 200 response store the
verification id, number and service and return `(True, number)`; otherwise
return `(False, "")`. -/
def TextVerifiedProvider.create_number (st : TVState) (up : TVUpstream)
    (service_name : String) :
    (Bool × Option String) × TVState × List String :=
  if up.verifStatus = 200 then
    ((true, up.verifNumber),
     { st with verification_id := up.verifId, phone_number := up.verifNumber,
               service := some service_name },
     ["POST /Verifications"])
  else ((false, some ""), st, ["POST /Verifications"])

/-- `TextVerifiedProvider.check_sms`: `if not self.verification_id: return
None` without any request; otherwise `GET /Verifications/{id}` and return
the body's `.get("code")` on 200, `None` otherwise. -/
def TextVerifiedProvider.check_sms (st : TVState) (up : TVUpstream) :
    Option String × List String :=
  if optStrFalsy st.verification_id then (none, [])
  else if up.checkStatus = 200 then (up.checkCode, ["GET /Verifications/id"])
  else (none, ["GET /Verifications/id"])

/-- `TextVerifiedProvider.cancel_number`: `if not self.verification_id:
return False` without any request; otherwise `DELETE /Verifications/{id}`;
on 200 clear `verification_id`, `phone_number` and `service` and return
`True`, otherwise return `False`. -/
def TextVerifiedProvider.cancel_number (st : TVState) (up : TVUpstream) :
    (Bool × TVState) × List String :=
  if optStrFalsy st.verification_id then ((false, st), [])
  else if up.cancelStatus = 200 then
    ((true, { st with verification_id := none, phone_number := none,
                      service := none }),
     ["DELETE /Verifications/id"])
  else ((false, st), ["DELETE /Verifications/id"])

/-- `TextVerifiedProvider.wait_for_sms` delegates to the base-class default
implementation via `super().wait_for_sms(timeout, check_interval)`. -/
def TextVerifiedProvider.wait_for_sms (poll : Nat → Option String)
    (timeout check_interval : Nat) : Option String :=
  TempIdentity.wait_for_sms poll timeout check_interval

/-! ## Provider registry (tempidentity/providers/registry.py) -/

/-- `ProviderRegistry` state: the two name → class mappings and the lazy
discovery flag. -/
structure ProviderRegistry where
  email_providers : List (String × ProviderClass)
  sms_providers : List (String × ProviderClass)
  isInit : Bool
deriving DecidableEq

/-- `ProviderRegistry.__init__`: empty mappings, discovery not yet run
(the module-level singleton `registry` starts in this state). -/
def initialRegistry : ProviderRegistry :=
  { email_providers := [], sms_providers := [], isInit := false }

/-- `register_email_provider`: upsert keyed by the class's declared name. -/
def register_email_provider (r : ProviderRegistry) (cls : ProviderClass) :
    ProviderRegistry :=
  { r with email_providers := dictInsert r.email_providers cls.name cls }

/-- `register_sms_provider`: upsert keyed by the class's declared name. -/
def register_sms_provider (r : ProviderRegistry) (cls : ProviderClass) :
    ProviderRegistry :=
  { r with sms_providers := dictInsert r.sms_providers cls.name cls }

/-- The built-in email adapter classes found by scanning
`tempidentity.providers.email` (deduplicated across the repository's
copies: `MailGwProvider` is the one email adapter whose source is
present). -/
def builtinEmailProviders : List ProviderClass := [MailGwProvider.descriptor]

/-- The built-in SMS adapter classes found by scanning
`tempidentity.providers.sms`: `TextVerifiedProvider`. -/
def builtinSMSProviders : List ProviderClass := [TextVerifiedProvider.descriptor]

/-- `_discover_builtin_providers`: register every built-in email class,
then every built-in SMS class. -/
def discover_builtin_providers (r : ProviderRegistry) : ProviderRegistry :=
  builtinSMSProviders.foldl register_sms_provider
    (builtinEmailProviders.foldl register_email_provider r)

/-- `_ensure_initialized`: on the first call run discovery and set the
flag; afterwards a no-op. -/
def ensure_initialized (r : ProviderRegistry) : ProviderRegistry :=
  if r.isInit then r
  else { (discover_builtin_providers r) with isInit := true }

/-- `get_email_provider(name)`: ensure discovery ran, then look the name
up.  Returns the looked-up class together with the updated registry
state. -/
def get_email_provider (r : ProviderRegistry) (name : String) :
    Option ProviderClass × ProviderRegistry :=
  let r1 := ensure_initialized r
  (dictGet r1.email_providers name, r1)

/-- `get_sms_provider(name)`: ensure discovery ran, then look the name
up. -/
def get_sms_provider (r : ProviderRegistry) (name : String) :
    Option ProviderClass × ProviderRegistry :=
  let r1 := ensure_initialized r
  (dictGet r1.sms_providers name, r1)

/-- An instantiated provider: the class it was created from plus the
config passed to the constructor. -/
structure ProviderInstance where
  cls : ProviderClass
  config : List (String × String)
deriving DecidableEq

/-- `create_email_provider(name, config)`: ensure discovery ran, resolve
the class, instantiate it with `config`, or return `None` for an unknown
name. -/
def create_email_provider (r : ProviderRegistry) (name : String)
    (config : List (String × String)) :
    Option ProviderInstance × ProviderRegistry :=
  let r1 := ensure_initialized r
  let g := get_email_provider r1 name
  match g.1 with
  | some cls => (some { cls := cls, config := config }, g.2)
  | none => (none, g.2)

/-- `create_sms_provider(name, config)`: ensure discovery ran, resolve the
class, instantiate it with `config`, or return `None` for an unknown
name. -/
def create_sms_provider (r : ProviderRegistry) (name : String)
    (config : List (String × String)) :
    Option ProviderInstance × ProviderRegistry :=
  let r1 := ensure_initialized r
  let g := get_sms_provider r1 name
  match g.1 with
  | some cls => (some { cls := cls, config := config }, g.2)
  | none => (none, g.2)

/-! ## Orchestration facade (tempidentity/core.py, SMS side)

Each facade function loads the configuration, resolves and instantiates
the preferred/requested SMS provider through the module-level singleton
registry (which starts as `initialRegistry`), and invokes one capability
operation.  The discovered SMS mapping contains exactly
`TextVerifiedProvider`, so a successful resolution always instantiates
that class; the model therefore dispatches the capability call to the
TextVerified operations.  Besides the Python return value each facade
function returns the list of capability-contract operations it invoked on
the provider instance and (except `wait_for_sms_code`) the list of HTTP
requests attempted. -/

/-- The configuration fields the SMS facade reads: the value of
`config.get("preferred_sms_service", "textverified")` is
`preferred_sms_service.getD "textverified"`, and `config.get("providers",
{}).get(name, {})` is `(dictGet providers name).getD []`. -/
structure AppConfig where
  preferred_sms_service : Option String
  providers : List (String × List (String × String))

/-- `get_sms_services()`: failure value `[]` when the preferred provider's
config block has a falsy `api_key` or the provider name is unknown;
otherwise invoke `get_available_services`. -/
def get_sms_services (cfg : AppConfig) (up : TVUpstream) :
    List Service × List String × List String :=
  let service_name := cfg.preferred_sms_service.getD "textverified"
  let provider_config := (dictGet cfg.providers service_name).getD []
  if optStrFalsy (dictGet provider_config "api_key") then ([], [], [])
  else
    match (create_sms_provider initialRegistry service_name provider_config).1 with
    | none => ([], [], [])
    | some inst =>
      let st := TextVerifiedProvider.init inst.config
      let r := TextVerifiedProvider.get_available_services st up
      (r.1, ["get_available_services"], r.2)

/-- `create_temp_sms(service_id)`: failure value `(False, "", "")` when the
preferred provider's config block has a falsy `api_key`, when the provider
name is unknown, or when `create_number` fails; on success
`(True, phone_number, service_name)` (the history write is an external
collaborator and is not modelled). -/
def create_temp_sms (cfg : AppConfig) (service_id : String) (up : TVUpstream) :
    (Bool × Option String × String) × List String × List String :=
  let service_name := cfg.preferred_sms_service.getD "textverified"
  let provider_config := (dictGet cfg.providers service_name).getD []
  if optStrFalsy (dictGet provider_config "api_key") then
    ((false, some "", ""), [], [])
  else
    match (create_sms_provider initialRegistry service_name provider_config).1 with
    | none => ((false, some "", ""), [], [])
    | some inst =>
      let st := TextVerifiedProvider.init inst.config
      let r := TextVerifiedProvider.create_number st up service_id
      if r.1.1 then ((true, r.1.2, service_name), ["create_number"], r.2.2)
      else ((false, some "", ""), ["create_number"], r.2.2)

/-- `wait_for_sms_code(service_name, wait_time)`: instantiate a fresh
provider (returning `None` for an unknown name, with no API-key check),
invoke `wait_for_sms(timeout=wait_time)` with the default
`check_interval=10` (`ups k` is the upstream response to the (k+1)-th
`check_sms`), then always invoke `cancel_number` (against `upCancel`) and
return the code. -/
def wait_for_sms_code (cfg : AppConfig) (service_name : String)
    (wait_time : Nat) (ups : Nat → TVUpstream) (upCancel : TVUpstream) :
    Option String × List String :=
  let provider_config := (dictGet cfg.providers service_name).getD []
  match (create_sms_provider initialRegistry service_name provider_config).1 with
  | none => (none, [])
  | some inst =>
    let st := TextVerifiedProvider.init inst.config
    let code := TextVerifiedProvider.wait_for_sms
      (fun k => (TextVerifiedProvider.check_sms st (ups k)).1) wait_time 10
    let c := TextVerifiedProvider.cancel_number st upCancel
    (code, ["wait_for_sms", "cancel_number"])

/-- `cancel_sms_number(service_name)`: instantiate a fresh provider
(returning `False` for an unknown name, with no API-key check) and invoke
`cancel_number` on it. -/
def cancel_sms_number (cfg : AppConfig) (service_name : String)
    (up : TVUpstream) : Bool × List String × List String :=
  let provider_config := (dictGet cfg.providers service_name).getD []
  match (create_sms_provider initialRegistry service_name provider_config).1 with
  | none => (false, [], [])
  | some inst =>
    let st := TextVerifiedProvider.init inst.config
    let r := TextVerifiedProvider.cancel_number st up
    (r.1.1, ["cancel_number"], r.2)

/-! ## Registry invariant -/

/-- A name → class mapping is keyed by the classes' declared names:
exactly the invariant `register_*_provider` maintains, since it always
uses `provider_class.name` as the key. -/
def Keyed (m : List (String × ProviderClass)) : Prop :=
  ∀ p ∈ m, p.2.name = p.1

/-- Both mappings of a registry are keyed by declared names. -/
def RegistryWF (r : ProviderRegistry) : Prop :=
  Keyed r.email_providers ∧ Keyed r.sms_providers

/-! ## Concrete inputs used by witnesses and counterexamples -/

/-- Poll sequence with message counts `[0, 0, 2, 2, ...]`. -/
def c2poll : Nat → List Nat := fun k => if k < 2 then [] else [10, 20]

/-- Poll sequence producing a code on the third call. -/
def c3poll : Nat → Option String := fun k =>
  if k < 2 then none else some "123456"

/-- Mail.gw upstream where the domain lookup and account creation succeed
but the post-creation `POST /token` login fails with a 500. -/
def mailgwLoginFailUpstream : MailGwUpstream :=
  { domainsStatus := 200, domains := [some "x.test"], accountsStatus := 201,
    tokenStatus := 500, tokenValue := none }

/-- A TextVerified instance holding an active allocation. -/
def tvActiveState : TVState :=
  { api_key := "k", phone_number := some "+15550001111",
    verification_id := some "v1", service := some "svc1" }

/-- `tvActiveState` after a successful cancellation. -/
def tvClearedState : TVState :=
  { api_key := "k", phone_number := none, verification_id := none,
    service := none }

/-- TextVerified upstream answering every endpoint successfully. -/
def tvUpstreamAny : TVUpstream :=
  { servicesStatus := 200, services := [], verifStatus := 200,
    verifId := some "v1", verifNumber := some "+15550001111",
    checkStatus := 200, checkCode := some "12345", cancelStatus := 200 }

/-- Configuration whose `textverified` provider block exists but carries
no `api_key`. -/
def cfgNoApiKey : AppConfig :=
  { preferred_sms_service := none, providers := [("textverified", [])] }

/-! ## Wait-loop characterization lemmas -/

/-- If no poll within the fuel budget exceeds the initial count, the email
wait loop returns the empty list. -/
theorem waitEmailLoop_eq_nil {α : Type} (p : Nat → List α) (init : Nat) :
    ∀ fuel k, (∀ j, j < fuel → (p (k + j)).length ≤ init) →
      waitEmailLoop p init fuel k = [] := by
  intro fuel
  induction fuel with
  | zero => intro k _; rfl
  | succ m ih =>
    intro k h
    have h0 : (p k).length ≤ init := by
      have := h 0 (Nat.succ_pos m)
      simpa using this
    unfold waitEmailLoop
    rw [if_neg (by omega)]
    refine ih (k+1) (fun j hj => ?_)
    have := h (j+1) (by omega)
    have e : k + (j+1) = (k+1) + j := by omega
    rw [e] at this
    exact this

/-- The email wait loop returns, at the first iteration whose poll result
exceeds the initial count, exactly the front slice of length
`current - initial` of that poll result. -/
theorem waitEmailLoop_first {α : Type} (p : Nat → List α) (init : Nat) :
    ∀ fuel k n, n < fuel →
      (∀ j, j < n → (p (k + j)).length ≤ init) →
      init < (p (k + n)).length →
      waitEmailLoop p init fuel k
        = (p (k + n)).take ((p (k + n)).length - init) := by
  intro fuel
  induction fuel with
  | zero => intro k n hn; omega
  | succ m ih =>
    intro k n hn hbefore hhit
    match n with
    | 0 =>
      unfold waitEmailLoop
      rw [if_pos (by simpa using hhit)]
      simp
    | n'+1 =>
      have h0 : (p k).length ≤ init := by
        have := hbefore 0 (Nat.succ_pos n')
        simpa using this
      unfold waitEmailLoop
      rw [if_neg (by omega)]
      have e : k + (n'+1) = (k+1) + n' := by omega
      rw [e] at hhit ⊢
      refine ih (k+1) n' (by omega) (fun j hj => ?_) hhit
      have := hbefore (j+1) (by omega)
      have e' : k + (j+1) = (k+1) + j := by omega
      rw [e'] at this
      exact this

/-- If every poll within the fuel budget is falsy (absent or empty code),
the SMS wait loop returns `none`. -/
theorem waitSMSLoop_eq_none (p : Nat → Option String) :
    ∀ fuel k, (∀ j, j < fuel → optStrFalsy (p (k + j)) = true) →
      waitSMSLoop p fuel k = none := by
  intro fuel
  induction fuel with
  | zero => intro k _; rfl
  | succ m ih =>
    intro k h
    have h0 : optStrFalsy (p k) = true := by
      have := h 0 (Nat.succ_pos m)
      simpa using this
    unfold waitSMSLoop
    rw [if_pos h0]
    refine ih (k+1) (fun j hj => ?_)
    have := h (j+1) (by omega)
    have e : k + (j+1) = (k+1) + j := by omega
    rw [e] at this
    exact this

/-- The SMS wait loop returns the value of the first truthy (non-empty,
present) poll within the fuel budget. -/
theorem waitSMSLoop_first (p : Nat → Option String) :
    ∀ fuel k n, n < fuel →
      (∀ j, j < n → optStrFalsy (p (k + j)) = true) →
      optStrFalsy (p (k + n)) = false →
      waitSMSLoop p fuel k = p (k + n) := by
  intro fuel
  induction fuel with
  | zero => intro k n hn; omega
  | succ m ih =>
    intro k n hn hbefore hhit
    match n with
    | 0 =>
      unfold waitSMSLoop
      rw [if_neg (by simpa using hhit)]
      simp
    | n'+1 =>
      have h0 : optStrFalsy (p k) = true := by
        have := hbefore 0 (Nat.succ_pos n')
        simpa using this
      unfold waitSMSLoop
      rw [if_pos h0]
      have e : k + (n'+1) = (k+1) + n' := by omega
      rw [e] at hhit ⊢
      refine ih (k+1) n' (by omega) (fun j hj => ?_) hhit
      have := hbefore (j+1) (by omega)
      have e' : k + (j+1) = (k+1) + j := by omega
      rw [e'] at this
      exact this

/-! ## Claims about the wait engine -/

/-- Claim C2: `wait_for_messages` records the initial message count
(`poll 0`), returns at the first poll iteration whose message count
exceeds that count — never a later one — exactly the first
`current - initial` messages of that poll result (a front slice), and
returns the empty list when no poll within the timeout window exceeds the
initial count.  "Never later" is expressed extensionally: the result is
already determined by the polls up to the first exceeding one. -/
theorem wait_for_messages_spec {α : Type} (poll : Nat → List α)
    (timeout check_interval : Nat) (hI : 0 < check_interval) :
    ((∀ j, j < numPolls timeout check_interval →
        (poll (j+1)).length ≤ (poll 0).length) →
      wait_for_messages poll timeout check_interval = [])
    ∧ ∀ n, n < numPolls timeout check_interval →
        (∀ j, j < n → (poll (j+1)).length ≤ (poll 0).length) →
        (poll 0).length < (poll (n+1)).length →
        wait_for_messages poll timeout check_interval
            = (poll (n+1)).take ((poll (n+1)).length - (poll 0).length)
          ∧ ∀ poll' : Nat → List α, poll' 0 = poll 0 →
              (∀ j, j ≤ n → poll' (j+1) = poll (j+1)) →
              wait_for_messages poll' timeout check_interval
                = (poll (n+1)).take ((poll (n+1)).length - (poll 0).length) := by
  constructor
  · intro h
    unfold wait_for_messages
    refine waitEmailLoop_eq_nil _ _ _ 0 (fun j hj => ?_)
    simpa using h j hj
  · intro n hn hbefore hhit
    constructor
    · unfold wait_for_messages
      have := waitEmailLoop_first (fun k => poll (k+1)) (poll 0).length
        (numPolls timeout check_interval) 0 n hn
        (fun j hj => by simpa using hbefore j hj)
        (by simpa using hhit)
      simpa using this
    · intro poll' h0 hagree
      unfold wait_for_messages
      have := waitEmailLoop_first (fun k => poll' (k+1)) (poll' 0).length
        (numPolls timeout check_interval) 0 n hn
        (fun j hj => by
          simp only [Nat.zero_add]
          rw [hagree j (Nat.le_of_lt hj), h0]
          exact hbefore j hj)
        (by
          simp only [Nat.zero_add]
          rw [hagree n (Nat.le_refl n), h0]
          exact hhit)
      simpa [h0, hagree n (Nat.le_refl n)] using this

/-- Witness for C2: on the count sequence `[0, 0, 2, 2, ...]` with
`timeout = 4`, `check_interval = 1`, the wait returns the two new
messages of the first exceeding poll. -/
theorem wait_for_messages_spec_witness :
    wait_for_messages c2poll 4 1 = [10, 20] := by
  have h := ((wait_for_messages_spec c2poll 4 1 (by decide)).2 1 (by decide)
    (fun j hj => by
      have hj0 : j = 0 := by omega
      subst hj0; decide)
    (by decide)).1
  exact h.trans (by decide)

/-- Claim C3: `wait_for_sms` returns the first non-empty code a poll
observes, immediately at the iteration where it first appears (the result
is already determined by the polls up to that one), and returns `none`
when the timeout window elapses before any poll yields a non-empty
code. -/
theorem wait_for_sms_spec (poll : Nat → Option String)
    (timeout check_interval : Nat) (hI : 0 < check_interval) :
    ((∀ j, j < numPolls timeout check_interval →
        optStrFalsy (poll j) = true) →
      wait_for_sms poll timeout check_interval = none)
    ∧ ∀ n, n < numPolls timeout check_interval →
        (∀ j, j < n → optStrFalsy (poll j) = true) →
        optStrFalsy (poll n) = false →
        wait_for_sms poll timeout check_interval = poll n
          ∧ ∀ poll' : Nat → Option String, (∀ j, j ≤ n → poll' j = poll j) →
              wait_for_sms poll' timeout check_interval = poll n := by
  constructor
  · intro h
    unfold wait_for_sms
    refine waitSMSLoop_eq_none _ _ 0 (fun j hj => ?_)
    simpa using h j hj
  · intro n hn hbefore hhit
    constructor
    · unfold wait_for_sms
      have := waitSMSLoop_first poll (numPolls timeout check_interval) 0 n hn
        (fun j hj => by simpa using hbefore j hj)
        (by simpa using hhit)
      simpa using this
    · intro poll' hagree
      unfold wait_for_sms
      have := waitSMSLoop_first poll' (numPolls timeout check_interval) 0 n hn
        (fun j hj => by
          simp only [Nat.zero_add]
          rw [hagree j (Nat.le_of_lt hj)]
          exact hbefore j hj)
        (by
          simp only [Nat.zero_add]
          rw [hagree n (Nat.le_refl n)]
          exact hhit)
      simpa [hagree n (Nat.le_refl n)] using this

/-- Witness for C3: a poll that first yields a code on its third call,
with `timeout = 30`, `check_interval = 10` (three polls), returns that
code. -/
theorem wait_for_sms_spec_witness :
    wait_for_sms c3poll 30 10 = some "123456" := by
  have h := ((wait_for_sms_spec c3poll 30 10 (by decide)).2 2 (by decide)
    (fun j hj => by
      match j, hj with
      | 0, _ => decide
      | 1, _ => decide)
    (by decide)).1
  exact h.trans (by decide)

/-- Claim C9: the wait methods on the concrete adapters
(`MailGwProvider.wait_for_messages`, `TextVerifiedProvider.wait_for_sms`)
are extensionally equal to the shared base-class default loop: for every
poll sequence, timeout and check interval they return the base
implementation's result. -/
theorem adapter_wait_methods_delegate :
    (∀ (α : Type) (poll : Nat → List α) (timeout check_interval : Nat),
        MailGwProvider.wait_for_messages poll timeout check_interval
          = wait_for_messages poll timeout check_interval)
    ∧ (∀ (poll : Nat → Option String) (timeout check_interval : Nat),
        TextVerifiedProvider.wait_for_sms poll timeout check_interval
          = wait_for_sms poll timeout check_interval) :=
  ⟨fun _ _ _ _ => rfl, fun _ _ _ => rfl⟩

/-! ## Claims about setup fields and the Mail.gw adapter -/

/-- Claim C8: for every provider class, `get_setup_fields` returns exactly
one field — named `api_key`, of password type, marked required — when the
class's `requires_api_key` flag is true, and the empty list when the flag
is false. -/
theorem get_setup_fields_spec (cls : ProviderClass) :
    (cls.requires_api_key = true →
      (get_setup_fields cls).length = 1
        ∧ ∀ f ∈ get_setup_fields cls,
            f.name = "api_key" ∧ f.type = "password" ∧ f.required = true)
    ∧ (cls.requires_api_key = false → get_setup_fields cls = []) := by
  constructor
  · intro h
    simp [get_setup_fields, h]
  · intro h
    simp [get_setup_fields, h]

/-- Witness for C8 at the two concrete adapter classes:
`TextVerifiedProvider` requires an API key, `MailGwProvider` does not. -/
theorem get_setup_fields_spec_witness :
    ((get_setup_fields TextVerifiedProvider.descriptor).length = 1
      ∧ ∀ f ∈ get_setup_fields TextVerifiedProvider.descriptor,
          f.name = "api_key" ∧ f.type = "password" ∧ f.required = true)
    ∧ get_setup_fields MailGwProvider.descriptor = [] :=
  ⟨(get_setup_fields_spec TextVerifiedProvider.descriptor).1 rfl,
   (get_setup_fields_spec MailGwProvider.descriptor).2 rfl⟩

/-- Counterexample to claim C1 as stated: when the domain lookup and the
account creation (201) succeed but the immediate post-creation login
fails, `MailGwProvider.create_email` returns `ok = False` together with
the generated, non-empty address and password
(mailgw.py line 75: `return False, self.email, self.password`) — not the
claimed pair of empty strings. -/
theorem create_email_login_failure_retains_credentials :
    ((MailGwProvider.create_email MailGwProvider.init mailgwLoginFailUpstream
        "user1" "pass1").1.1 = false)
    ∧ ¬((MailGwProvider.create_email MailGwProvider.init mailgwLoginFailUpstream
          "user1" "pass1").1.2.1 = ""
        ∧ (MailGwProvider.create_email MailGwProvider.init mailgwLoginFailUpstream
            "user1" "pass1").1.2.2 = "") := by
  decide

/-- Claim C1 as amended: on a domain-lookup failure and on an
account-creation non-201 response, `create_email` returns
`(False, "", "")`; on a post-creation login failure it returns `ok =
False` together with the generated address and password. -/
theorem create_email_failure_paths (st : MailGwState) (up : MailGwUpstream)
    (username password : String) :
    (optStrFalsy (MailGwProvider.get_domains up) = true →
      (MailGwProvider.create_email st up username password).1
        = (false, "", ""))
    ∧ (optStrFalsy (MailGwProvider.get_domains up) = false →
        up.accountsStatus ≠ 201 →
        (MailGwProvider.create_email st up username password).1
          = (false, "", ""))
    ∧ (optStrFalsy (MailGwProvider.get_domains up) = false →
        up.accountsStatus = 201 → up.tokenStatus ≠ 200 →
        (MailGwProvider.create_email st up username password).1
          = (false,
             username ++ "@" ++ (MailGwProvider.get_domains up).getD "",
             password)) := by
  refine ⟨fun h => ?_, fun h h2 => ?_, fun h h2 h3 => ?_⟩
  · simp [MailGwProvider.create_email, h]
  · simp [MailGwProvider.create_email, h, h2]
  · simp [MailGwProvider.create_email, MailGwProvider.login, h, h2, h3]

/-- Witness for the amended C1 at the login-failure input. -/
theorem create_email_failure_paths_witness :
    (MailGwProvider.create_email MailGwProvider.init mailgwLoginFailUpstream
        "user1" "pass1").1 = (false, "user1@x.test", "pass1") := by
  have h := (create_email_failure_paths MailGwProvider.init
    mailgwLoginFailUpstream "user1" "pass1").2.2 (by decide) rfl (by decide)
  exact h.trans (by decide)

/-! ## Claims about the TextVerified adapter -/

/-- Claim C5: `cancel_number` on an instance with no active verification
id returns `False` (and, the embedding being total, cannot raise — it also
attempts no request); after a `cancel_number` call that returns `True`,
the verification id, phone number and service are all cleared, so an
immediately following `cancel_number` call returns `False`. -/
theorem cancel_number_idempotent (st : TVState) (up up' : TVUpstream) :
    (optStrFalsy st.verification_id = true →
      TextVerifiedProvider.cancel_number st up = ((false, st), []))
    ∧ ∀ st2 reqs,
        TextVerifiedProvider.cancel_number st up = ((true, st2), reqs) →
        st2.verification_id = none ∧ st2.phone_number = none
          ∧ st2.service = none
          ∧ TextVerifiedProvider.cancel_number st2 up' = ((false, st2), []) := by
  constructor
  · intro h
    simp [TextVerifiedProvider.cancel_number, h]
  · intro st2 reqs h
    by_cases h1 : optStrFalsy st.verification_id
    · simp [TextVerifiedProvider.cancel_number, h1] at h
    · by_cases h2 : up.cancelStatus = 200
      · simp [TextVerifiedProvider.cancel_number, h1, h2] at h
        obtain ⟨hst, -⟩ := h
        subst hst
        refine ⟨rfl, rfl, rfl, ?_⟩
        simp [TextVerifiedProvider.cancel_number, optStrFalsy]
      · simp [TextVerifiedProvider.cancel_number, h1, h2] at h

/-- Witness for C5: a fresh instance cancels to `False` with no request,
and after a successful cancellation of an active allocation the second
cancellation returns `False`. -/
theorem cancel_number_idempotent_witness :
    TextVerifiedProvider.cancel_number (TextVerifiedProvider.init [])
        tvUpstreamAny = ((false, TextVerifiedProvider.init []), [])
    ∧ TextVerifiedProvider.cancel_number tvClearedState tvUpstreamAny
        = ((false, tvClearedState), []) :=
  ⟨(cancel_number_idempotent (TextVerifiedProvider.init []) tvUpstreamAny
      tvUpstreamAny).1 rfl,
   ((cancel_number_idempotent tvActiveState tvUpstreamAny
      tvUpstreamAny).2 tvClearedState ["DELETE /Verifications/id"]
      (by decide)).2.2.2⟩

/-! ## Registry lemmas -/

/-- The SMS wait loop over a poll that never yields anything returns
`none` whatever the fuel. -/
theorem waitSMSLoop_const_none (fuel k : Nat) :
    waitSMSLoop (fun _ => none) fuel k = none :=
  waitSMSLoop_eq_none _ fuel k (fun _ _ => rfl)

/-- Registering a class under its declared name preserves the keyed
invariant. -/
theorem keyed_dictInsert (cls : ProviderClass) :
    ∀ m, Keyed m → Keyed (dictInsert m cls.name cls) := by
  intro m
  induction m with
  | nil =>
    intro _ p hp
    simp [dictInsert] at hp
    subst hp
    rfl
  | cons q rest ih =>
    intro hm p hp
    obtain ⟨k', v'⟩ := q
    simp only [dictInsert] at hp
    by_cases he : k' = cls.name
    · rw [if_pos he] at hp
      rcases List.mem_cons.mp hp with h1 | h1
      · subst h1; rfl
      · exact hm p (List.mem_cons_of_mem _ h1)
    · rw [if_neg he] at hp
      rcases List.mem_cons.mp hp with h1 | h1
      · subst h1
        exact hm (k', v') (List.mem_cons_self _ _)
      · exact ih (fun q hq => hm q (List.mem_cons_of_mem _ hq)) p h1

/-- In a keyed mapping, a successful lookup returns a class whose declared
name is the looked-up key. -/
theorem keyed_dictGet :
    ∀ m, Keyed m → ∀ (k : String) (v : ProviderClass),
      dictGet m k = some v → v.name = k := by
  intro m
  induction m with
  | nil => intro _ k v h; simp [dictGet] at h
  | cons q rest ih =>
    intro hm k v h
    obtain ⟨k', v'⟩ := q
    simp only [dictGet] at h
    by_cases he : k' = k
    · rw [if_pos he] at h
      have hv : v' = v := by simpa using h
      have hk : v'.name = k' := hm (k', v') (List.mem_cons_self _ _)
      rw [← hv, hk, he]
    · rw [if_neg he] at h
      exact ih (fun q hq => hm q (List.mem_cons_of_mem _ hq)) k v h

/-- `register_email_provider` preserves the registry invariant. -/
theorem wf_register_email (r : ProviderRegistry) (hr : RegistryWF r)
    (cls : ProviderClass) : RegistryWF (register_email_provider r cls) :=
  ⟨keyed_dictInsert cls r.email_providers hr.1, hr.2⟩

/-- `register_sms_provider` preserves the registry invariant. -/
theorem wf_register_sms (r : ProviderRegistry) (hr : RegistryWF r)
    (cls : ProviderClass) : RegistryWF (register_sms_provider r cls) :=
  ⟨hr.1, keyed_dictInsert cls r.sms_providers hr.2⟩

/-- Registering a list of email classes preserves the invariant. -/
theorem wf_foldl_email :
    ∀ (l : List ProviderClass) (r : ProviderRegistry), RegistryWF r →
      RegistryWF (l.foldl register_email_provider r) := by
  intro l
  induction l with
  | nil => intro r hr; exact hr
  | cons c cs ih => intro r hr; exact ih _ (wf_register_email r hr c)

/-- Registering a list of SMS classes preserves the invariant. -/
theorem wf_foldl_sms :
    ∀ (l : List ProviderClass) (r : ProviderRegistry), RegistryWF r →
      RegistryWF (l.foldl register_sms_provider r) := by
  intro l
  induction l with
  | nil => intro r hr; exact hr
  | cons c cs ih => intro r hr; exact ih _ (wf_register_sms r hr c)

/-- Built-in discovery preserves the registry invariant. -/
theorem wf_discover (r : ProviderRegistry) (hr : RegistryWF r) :
    RegistryWF (discover_builtin_providers r) :=
  wf_foldl_sms _ _ (wf_foldl_email _ _ hr)

/-- Lazy initialization preserves the registry invariant. -/
theorem wf_ensure (r : ProviderRegistry) (hr : RegistryWF r) :
    RegistryWF (ensure_initialized r) := by
  unfold ensure_initialized
  by_cases h : r.isInit
  · rw [if_pos h]; exact hr
  · rw [if_neg h]
    exact ⟨(wf_discover r hr).1, (wf_discover r hr).2⟩

/-- `_ensure_initialized` is idempotent on the registry state. -/
theorem ensure_initialized_idem (r : ProviderRegistry) :
    ensure_initialized (ensure_initialized r) = ensure_initialized r := by
  unfold ensure_initialized
  by_cases h : r.isInit
  · simp [h]
  · simp [h]

/-- Closed form of `create_email_provider`: look the name up in the
ensured registry and instantiate. -/
theorem create_email_provider_eq (r : ProviderRegistry) (name : String)
    (config : List (String × String)) :
    create_email_provider r name config
      = ((dictGet (ensure_initialized r).email_providers name).map
          (fun cls => { cls := cls, config := config }),
         ensure_initialized r) := by
  simp only [create_email_provider, get_email_provider, ensure_initialized_idem]
  cases dictGet (ensure_initialized r).email_providers name <;> simp

/-- Closed form of `create_sms_provider`: look the name up in the ensured
registry and instantiate. -/
theorem create_sms_provider_eq (r : ProviderRegistry) (name : String)
    (config : List (String × String)) :
    create_sms_provider r name config
      = ((dictGet (ensure_initialized r).sms_providers name).map
          (fun cls => { cls := cls, config := config }),
         ensure_initialized r) := by
  simp only [create_sms_provider, get_sms_provider, ensure_initialized_idem]
  cases dictGet (ensure_initialized r).sms_providers name <;> simp

/-- What `create_sms_provider` resolves against the module-level singleton
registry: after discovery the SMS mapping holds exactly
`TextVerifiedProvider`. -/
theorem create_sms_provider_initial (name : String)
    (config : List (String × String)) :
    (create_sms_provider initialRegistry name config).1
      = if "textverified" = name
        then some { cls := TextVerifiedProvider.descriptor, config := config }
        else none := by
  rw [create_sms_provider_eq]
  have hsms : (ensure_initialized initialRegistry).sms_providers
      = [("textverified", TextVerifiedProvider.descriptor)] := rfl
  simp only [hsms, dictGet]
  by_cases h : "textverified" = name
  · simp [h, TextVerifiedProvider.descriptor]
  · simp [h, TextVerifiedProvider.descriptor]

/-! ## Claims about the registry -/

/-- Claim C6: for every name registered in a well-keyed registry (of
either kind) and every config, `create_email_provider` /
`create_sms_provider` return an instance whose class-level descriptor name
equals the requested name; for every unregistered name they return
`none`.  Registration always keys a class by its declared name
(`RegistryWF` is the invariant every reachable registry satisfies). -/
theorem create_provider_resolves_name (r : ProviderRegistry)
    (hr : RegistryWF r) (name : String) (config : List (String × String)) :
    ((∀ inst, (create_email_provider r name config).1 = some inst →
        inst.cls.name = name)
      ∧ (∀ cls, dictGet (ensure_initialized r).email_providers name = some cls →
          ∃ inst, (create_email_provider r name config).1 = some inst)
      ∧ (dictGet (ensure_initialized r).email_providers name = none →
          (create_email_provider r name config).1 = none))
    ∧ ((∀ inst, (create_sms_provider r name config).1 = some inst →
        inst.cls.name = name)
      ∧ (∀ cls, dictGet (ensure_initialized r).sms_providers name = some cls →
          ∃ inst, (create_sms_provider r name config).1 = some inst)
      ∧ (dictGet (ensure_initialized r).sms_providers name = none →
          (create_sms_provider r name config).1 = none)) := by
  have hwf := wf_ensure r hr
  constructor
  · refine ⟨?_, ?_, ?_⟩
    · intro inst h
      have h' : (dictGet (ensure_initialized r).email_providers name).map
          (fun cls => ({ cls := cls, config := config } : ProviderInstance))
          = some inst := by
        rw [create_email_provider_eq] at h
        exact h
      obtain ⟨cls, hget, hcls⟩ := Option.map_eq_some'.mp h'
      have hname := keyed_dictGet _ hwf.1 name cls hget
      rw [← hcls]
      exact hname
    · intro cls hget
      refine ⟨{ cls := cls, config := config }, ?_⟩
      rw [create_email_provider_eq]
      simp [hget]
    · intro h
      rw [create_email_provider_eq]
      simp [h]
  · refine ⟨?_, ?_, ?_⟩
    · intro inst h
      have h' : (dictGet (ensure_initialized r).sms_providers name).map
          (fun cls => ({ cls := cls, config := config } : ProviderInstance))
          = some inst := by
        rw [create_sms_provider_eq] at h
        exact h
      obtain ⟨cls, hget, hcls⟩ := Option.map_eq_some'.mp h'
      have hname := keyed_dictGet _ hwf.2 name cls hget
      rw [← hcls]
      exact hname
    · intro cls hget
      refine ⟨{ cls := cls, config := config }, ?_⟩
      rw [create_sms_provider_eq]
      simp [hget]
    · intro h
      rw [create_sms_provider_eq]
      simp [h]

/-- Witness for C6 on the singleton registry: the registered name
`textverified` resolves to an instance, the unregistered name `nosuch`
resolves to `none`. -/
theorem create_provider_resolves_name_witness :
    (∃ inst, (create_sms_provider initialRegistry "textverified" []).1
        = some inst)
    ∧ (create_email_provider initialRegistry "nosuch" []).1 = none := by
  have hwf : RegistryWF initialRegistry :=
    ⟨fun p hp => absurd hp (List.not_mem_nil p),
     fun p hp => absurd hp (List.not_mem_nil p)⟩
  exact ⟨(create_provider_resolves_name initialRegistry hwf "textverified"
      []).2.2.1 TextVerifiedProvider.descriptor (by decide),
    (create_provider_resolves_name initialRegistry hwf "nosuch" []).1.2.2
      (by decide)⟩

/-- Claim C7: registry discovery is idempotent — running
`_ensure_initialized` twice leaves the registry (in particular both
name → implementation mappings) as after running it once, and any
lookup/creation call performed after the first leaves the registry state
unchanged. -/
theorem registry_discovery_idempotent (r : ProviderRegistry) :
    ensure_initialized (ensure_initialized r) = ensure_initialized r
    ∧ ∀ name config,
        (get_email_provider (ensure_initialized r) name).2
            = ensure_initialized r
        ∧ (get_sms_provider (ensure_initialized r) name).2
            = ensure_initialized r
        ∧ (create_email_provider (ensure_initialized r) name config).2
            = ensure_initialized r
        ∧ (create_sms_provider (ensure_initialized r) name config).2
            = ensure_initialized r := by
  refine ⟨ensure_initialized_idem r, fun name config => ⟨?_, ?_, ?_, ?_⟩⟩
  · simp [get_email_provider, ensure_initialized_idem]
  · simp [get_sms_provider, ensure_initialized_idem]
  · simp [create_email_provider_eq, ensure_initialized_idem]
  · simp [create_sms_provider_eq, ensure_initialized_idem]

/-! ## Claims about the SMS facade -/

/-- Counterexample to claim C4 as stated: `cancel_sms_number` performs no
API-key check, so with the known provider name `textverified` and a config
block carrying no `api_key` it still invokes the capability-contract
operation `cancel_number` on the provider instance (the operation list is
`["cancel_number"]`, not `[]`), although it does return the failure value
`False`. -/
theorem cancel_sms_number_missing_key_invokes_op :
    dictGet ((dictGet cfgNoApiKey.providers "textverified").getD []) "api_key"
        = none
    ∧ (cancel_sms_number cfgNoApiKey "textverified" tvUpstreamAny).1 = false
    ∧ (cancel_sms_number cfgNoApiKey "textverified" tvUpstreamAny).2.1
        = ["cancel_number"] := by
  decide

/-- Claim C4 as amended: an unknown provider name short-circuits every
facade SMS function to its failure value with no capability operation
invoked and no request attempted; an absent `api_key` short-circuits
`get_sms_services` and `create_temp_sms` likewise, but `cancel_sms_number`
and `wait_for_sms_code` do not check the API key: they still invoke their
capability operation on the freshly constructed instance — which makes no
upstream request, so the failure value is still returned. -/
theorem sms_facade_resolution_failure (cfg : AppConfig)
    (service_id service_name : String) (wait_time : Nat)
    (up upCancel : TVUpstream) (ups : Nat → TVUpstream) :
    (optStrFalsy (dictGet ((dictGet cfg.providers
          (cfg.preferred_sms_service.getD "textverified")).getD [])
          "api_key") = true →
        get_sms_services cfg up = ([], [], [])
        ∧ create_temp_sms cfg service_id up = ((false, some "", ""), [], []))
    ∧ (cfg.preferred_sms_service.getD "textverified" ≠ "textverified" →
        get_sms_services cfg up = ([], [], [])
        ∧ create_temp_sms cfg service_id up = ((false, some "", ""), [], []))
    ∧ (service_name ≠ "textverified" →
        cancel_sms_number cfg service_name up = (false, [], [])
        ∧ wait_for_sms_code cfg service_name wait_time ups upCancel
            = (none, []))
    ∧ (service_name = "textverified" →
        optStrFalsy (dictGet ((dictGet cfg.providers service_name).getD [])
            "api_key") = true →
        cancel_sms_number cfg service_name up
            = (false, ["cancel_number"], [])
        ∧ wait_for_sms_code cfg service_name wait_time ups upCancel
            = (none, ["wait_for_sms", "cancel_number"])) := by
  refine ⟨fun hk => ⟨?_, ?_⟩, fun hn => ⟨?_, ?_⟩, fun hn => ⟨?_, ?_⟩,
    fun hn hk => ⟨?_, ?_⟩⟩
  · simp [get_sms_services, hk]
  · simp [create_temp_sms, hk]
  · by_cases hk : optStrFalsy (dictGet ((dictGet cfg.providers
        (cfg.preferred_sms_service.getD "textverified")).getD []) "api_key")
    <;> simp [get_sms_services, hk, create_sms_provider_initial, Ne.symm hn]
  · by_cases hk : optStrFalsy (dictGet ((dictGet cfg.providers
        (cfg.preferred_sms_service.getD "textverified")).getD []) "api_key")
    <;> simp [create_temp_sms, hk, create_sms_provider_initial, Ne.symm hn]
  · simp [cancel_sms_number, create_sms_provider_initial, Ne.symm hn]
  · simp [wait_for_sms_code, create_sms_provider_initial, Ne.symm hn]
  · subst hn
    simp [cancel_sms_number, create_sms_provider_initial,
      TextVerifiedProvider.cancel_number, TextVerifiedProvider.init,
      optStrFalsy]
  · subst hn
    simp [wait_for_sms_code, create_sms_provider_initial,
      TextVerifiedProvider.check_sms, TextVerifiedProvider.init, optStrFalsy,
      TextVerifiedProvider.wait_for_sms, wait_for_sms, waitSMSLoop_const_none]

/-- Witness for the amended C4: a missing `api_key` short-circuits
`get_sms_services`; an unknown name short-circuits `cancel_sms_number`;
`wait_for_sms_code` on a known name with a missing key still invokes its
operations and returns the absent failure value. -/
theorem sms_facade_resolution_failure_witness :
    get_sms_services cfgNoApiKey tvUpstreamAny = ([], [], [])
    ∧ cancel_sms_number cfgNoApiKey "othersms" tvUpstreamAny = (false, [], [])
    ∧ wait_for_sms_code cfgNoApiKey "textverified" 60
        (fun _ => tvUpstreamAny) tvUpstreamAny
        = (none, ["wait_for_sms", "cancel_number"]) :=
  ⟨((sms_facade_resolution_failure cfgNoApiKey "svc1" "x" 0 tvUpstreamAny
      tvUpstreamAny (fun _ => tvUpstreamAny)).1 (by decide)).1,
   ((sms_facade_resolution_failure cfgNoApiKey "svc1" "othersms" 0
      tvUpstreamAny tvUpstreamAny (fun _ => tvUpstreamAny)).2.2.1
      (by decide)).1,
   ((sms_facade_resolution_failure cfgNoApiKey "svc1" "textverified" 60
      tvUpstreamAny tvUpstreamAny (fun _ => tvUpstreamAny)).2.2.2 rfl
      (by decide)).2⟩

/-- Claim C10: `check_sms` on an instance whose verification id is absent
returns `None` without performing any upstream request; consequently the
facade `wait_for_sms_code`, which always polls a freshly constructed
provider instance, returns the absent value after its timeout on every
input. -/
theorem check_sms_requires_verification_id :
    (∀ (st : TVState) (up : TVUpstream), st.verification_id = none →
        TextVerifiedProvider.check_sms st up = (none, []))
    ∧ ∀ (cfg : AppConfig) (service_name : String) (wait_time : Nat)
        (ups : Nat → TVUpstream) (upCancel : TVUpstream),
        (wait_for_sms_code cfg service_name wait_time ups upCancel).1
          = none := by
  constructor
  · intro st up h
    simp [TextVerifiedProvider.check_sms, h, optStrFalsy]
  · intro cfg service_name wait_time ups upCancel
    by_cases h : "textverified" = service_name
    · subst h
      simp [wait_for_sms_code, create_sms_provider_initial,
        TextVerifiedProvider.check_sms, TextVerifiedProvider.init, optStrFalsy,
        TextVerifiedProvider.wait_for_sms, wait_for_sms, waitSMSLoop_const_none]
    · simp [wait_for_sms_code, create_sms_provider_initial, h]

/-- Witness for C10 at a fresh instance and a concrete facade call. -/
theorem check_sms_requires_verification_id_witness :
    TextVerifiedProvider.check_sms (TextVerifiedProvider.init []) tvUpstreamAny
        = (none, [])
    ∧ (wait_for_sms_code cfgNoApiKey "textverified" 120
        (fun _ => tvUpstreamAny) tvUpstreamAny).1 = none :=
  ⟨check_sms_requires_verification_id.1 (TextVerifiedProvider.init [])
      tvUpstreamAny rfl,
   check_sms_requires_verification_id.2 cfgNoApiKey "textverified" 120
      (fun _ => tvUpstreamAny) tvUpstreamAny⟩

end TempIdentity
